import Mathlib

/-!
Shallow embedding of `src/main.cpp` of the texturing demo (a minimal
OpenGL renderer: mesh construction, Assimp import adapter, model-matrix
pipeline, render loop), together with theorems settling the specification's
claims about it.

Conventions of the embedding:
* C++ `float` values are modelled as rationals (`ℚ`); the algebraic
  structure of the transform pipeline is what the claims are about.
* `uint32_t` counters are natural numbers reduced mod `2 ^ 32` where the
  source stores a wider value into the 32-bit field.
* GPU calls (`glGenBuffers`, `glBufferData`, ...) have no observable
  effect on the data the claims mention; what the claims do mention —
  the attribute layout configured, the element accesses performed on the
  input vectors, the `faces` count stored — is modelled explicitly.
* Out-of-bounds element accesses (`&vertices[0]` on an empty vector,
  `scene->mMeshes[0]` on a scene without meshes) are undefined behaviour
  in the source; the embedding makes the fallible operations return
  `Option`/an explicit outcome so that reaching such an access is visible.
* The external Assimp importer is modelled by its parsed result (`AiScene`),
  and the `aiProcess_FlipUVs` post-process step by `flipMeshUVs`.
-/

/-- Vertex3D from main.cpp:26-32: five 4-byte floats x, y, z, u, v. -/
structure Vertex3D where
  x : ℚ
  y : ℚ
  z : ℚ
  u : ℚ
  v : ℚ
deriving DecidableEq, Repr

/-- Mesh from main.cpp:20-24: a vertex-array handle, the stored count
`faces` (a `uint32_t`), and a texture handle. -/
structure Mesh where
  vao : ℕ
  faces : ℕ
  texture : ℕ
deriving DecidableEq, Repr

/-- sizeof(Vertex3D): five floats of 4 bytes, tightly packed. -/
def sizeofVertex3D : ℕ := 5 * 4

/-- One glVertexAttribPointer configuration: attribute index, component
count, byte offset into the vertex record, and stride. -/
structure VertexAttrib where
  index : ℕ
  size : ℕ
  byteOffset : ℕ
  stride : ℕ
deriving DecidableEq, Repr

/-- The vertex attributes constructMesh configures (main.cpp:65-66): a single
glVertexAttribPointer(0, 3, GL_FLOAT, false, sizeof(Vertex3D), 0) call plus
glEnableVertexAttribArray(0). The second attribute (2 floats at byte offset
12) is an unimplemented TODO in the source (main.cpp:67-71). -/
def constructMeshAttribs : List VertexAttrib :=
  [{ index := 0, size := 3, byteOffset := 0, stride := sizeofVertex3D }]

/-- The element indices constructMesh reads from its `vertices` argument:
main.cpp:63 takes the address of `vertices[0]` unconditionally. -/
def constructMeshVertexElementReads : List ℕ := [0]

/-- The element indices constructMesh reads from its `faces` argument:
main.cpp:77 takes the address of `faces[0]` unconditionally. -/
def constructMeshFaceElementReads : List ℕ := [0]

/-- constructMesh from main.cpp:46-83. It stores `faces.size()` into the
32-bit `faces` field and uploads both buffers by reading the address of
element 0 of each input vector; on an empty input vector that element-0
access is out of bounds (undefined behaviour), modelled as `none`. The
GPU handles it generates carry no data the claims mention; they are
modelled as 0. -/
def constructMesh (vertices : List Vertex3D) (faces : List ℕ) : Option Mesh :=
  if vertices.isEmpty || faces.isEmpty then none
  else some { vao := 0, faces := faces.length % 2 ^ 32, texture := 0 }

/-- The literal triangle vertices of main.cpp:176-180. -/
def triangleVertices : List Vertex3D :=
  [ { x := -(1/2), y := -(1/2), z := 0, u := 0, v := 1 },
    { x := -(1/2), y := 1/2, z := 0, u := 0, v := 0 },
    { x := 1/2, y := 1/2, z := 0, u := 1, v := 0 } ]

/-- The literal triangle index list of main.cpp:181-183. -/
def triangleFaces : List ℕ := [2, 1, 0]

/-- One Assimp vector (aiVector3D): x, y, z. A texture coordinate uses its
x and y components as u and v (main.cpp:99-100). -/
structure AiVector3 where
  x : ℚ
  y : ℚ
  z : ℚ
deriving DecidableEq, Repr

/-- One triangular Assimp face: its three vertex indices mIndices[0..2],
as main.cpp:109-111 reads them. -/
structure AiFace where
  i0 : ℕ
  i1 : ℕ
  i2 : ℕ
deriving DecidableEq, Repr

/-- An Assimp mesh as main.cpp consumes it: the vertex positions
(mVertices), the first UV channel (mTextureCoords[0]) and the faces. -/
structure AiMesh where
  mVertices : List AiVector3
  mTextureCoords0 : List AiVector3
  mFaces : List AiFace
deriving DecidableEq, Repr

/-- An Assimp scene as main.cpp consumes it: its mesh list (mMeshes). -/
structure AiScene where
  mMeshes : List AiMesh
deriving DecidableEq, Repr

/-- The vertex half of fromAssimpMesh (main.cpp:92-104): for each Assimp
vertex one Vertex3D built as `{ x, y, z }`, which value-initializes the
remaining fields, so u = v = 0. Importing the texture coordinates of
mTextureCoords[0] is an unimplemented TODO in the source (main.cpp:95-103). -/
def fromAssimpMeshVertices (mesh : AiMesh) : List Vertex3D :=
  mesh.mVertices.map (fun p => { x := p.x, y := p.y, z := p.z, u := 0, v := 0 })

/-- Flattening of a face list into an index list, three indices per face in
face order, as the loop of main.cpp:107-112 pushes them. -/
def tripleIndexList : List AiFace → List ℕ
  | [] => []
  | fc :: rest => fc.i0 :: fc.i1 :: fc.i2 :: tripleIndexList rest

/-- The face half of fromAssimpMesh (main.cpp:106-112): the three vertex
indices of each face, in face order (the `reserve` call has no semantic
effect). -/
def fromAssimpMeshFaces (mesh : AiMesh) : List ℕ :=
  tripleIndexList mesh.mFaces

/-- Model of the external aiProcess_FlipUVs post-process step the importer
applies when assimpLoad is called with flipUvs = true (main.cpp:119-121):
every texture coordinate's v component is replaced by 1 - v; positions and
u components are untouched. -/
def flipMeshUVs (mesh : AiMesh) : AiMesh :=
  { mesh with mTextureCoords0 := mesh.mTextureCoords0.map (fun t => { t with y := 1 - t.y }) }

/-- Outcome of assimpLoad (main.cpp:117-137): a fatal diagnostic-and-exit,
an out-of-bounds access to the scene's mesh array, or the constructMesh
result for the first mesh. -/
inductive LoadOutcome where
  | fatalExit (code : ℕ)
  | indexOutOfBounds
  | ok (m : Option Mesh)
deriving DecidableEq, Repr

/-- Whether a LoadOutcome is the fatal diagnostic-and-exit path. -/
def LoadOutcome.isFatal : LoadOutcome → Bool
  | LoadOutcome.fatalExit _ => true
  | _ => false

/-- assimpLoad from main.cpp:117-137, past the external ReadFile call: its
argument is the scene the importer returned (`none` when parsing failed).
On `none` it prints a diagnostic and calls exit(1); otherwise it reads
`scene->mMeshes[0]` with no check that the scene has a mesh — on a scene
with an empty mesh list that access is out of bounds — and hands the first
mesh's converted data to constructMesh. -/
def assimpLoadFromScene (scene : Option AiScene) : LoadOutcome :=
  match scene with
  | none => LoadOutcome.fatalExit 1
  | some s =>
    match s.mMeshes with
    | [] => LoadOutcome.indexOutOfBounds
    | m0 :: _ => LoadOutcome.ok (constructMesh (fromAssimpMeshVertices m0) (fromAssimpMeshFaces m0))

/-- A 4x4 matrix of rationals, entry `aRC` being row R, column C of the
transform in the usual mathematical convention (glm stores the same
transform column-major: glm's m[c][r] is `aRC` here). -/
structure Mat4 where
  a00 : ℚ
  a01 : ℚ
  a02 : ℚ
  a03 : ℚ
  a10 : ℚ
  a11 : ℚ
  a12 : ℚ
  a13 : ℚ
  a20 : ℚ
  a21 : ℚ
  a22 : ℚ
  a23 : ℚ
  a30 : ℚ
  a31 : ℚ
  a32 : ℚ
  a33 : ℚ
deriving DecidableEq, Repr

/-- Matrix product: entry (r, c) of `matMul l r` is the dot product of row r
of `l` with column c of `r`. -/
def matMul (l r : Mat4) : Mat4 where
  a00 := l.a00 * r.a00 + l.a01 * r.a10 + l.a02 * r.a20 + l.a03 * r.a30
  a01 := l.a00 * r.a01 + l.a01 * r.a11 + l.a02 * r.a21 + l.a03 * r.a31
  a02 := l.a00 * r.a02 + l.a01 * r.a12 + l.a02 * r.a22 + l.a03 * r.a32
  a03 := l.a00 * r.a03 + l.a01 * r.a13 + l.a02 * r.a23 + l.a03 * r.a33
  a10 := l.a10 * r.a00 + l.a11 * r.a10 + l.a12 * r.a20 + l.a13 * r.a30
  a11 := l.a10 * r.a01 + l.a11 * r.a11 + l.a12 * r.a21 + l.a13 * r.a31
  a12 := l.a10 * r.a02 + l.a11 * r.a12 + l.a12 * r.a22 + l.a13 * r.a32
  a13 := l.a10 * r.a03 + l.a11 * r.a13 + l.a12 * r.a23 + l.a13 * r.a33
  a20 := l.a20 * r.a00 + l.a21 * r.a10 + l.a22 * r.a20 + l.a23 * r.a30
  a21 := l.a20 * r.a01 + l.a21 * r.a11 + l.a22 * r.a21 + l.a23 * r.a31
  a22 := l.a20 * r.a02 + l.a21 * r.a12 + l.a22 * r.a22 + l.a23 * r.a32
  a23 := l.a20 * r.a03 + l.a21 * r.a13 + l.a22 * r.a23 + l.a23 * r.a33
  a30 := l.a30 * r.a00 + l.a31 * r.a10 + l.a32 * r.a20 + l.a33 * r.a30
  a31 := l.a30 * r.a01 + l.a31 * r.a11 + l.a32 * r.a21 + l.a33 * r.a31
  a32 := l.a30 * r.a02 + l.a31 * r.a12 + l.a32 * r.a22 + l.a33 * r.a32
  a33 := l.a30 * r.a03 + l.a31 * r.a13 + l.a32 * r.a23 + l.a33 * r.a33

/-- The identity matrix, glm::mat4(1). -/
def mat4identity : Mat4 where
  a00 := 1
  a01 := 0
  a02 := 0
  a03 := 0
  a10 := 0
  a11 := 1
  a12 := 0
  a13 := 0
  a20 := 0
  a21 := 0
  a22 := 1
  a23 := 0
  a30 := 0
  a31 := 0
  a32 := 0
  a33 := 1

/-- A 3-component vector (glm::vec3) of rationals. -/
structure Vec3 where
  x : ℚ
  y : ℚ
  z : ℚ
deriving DecidableEq, Repr

/-- The translation matrix glm::translate multiplies onto the right of its
matrix argument: identity with the vector in the last column. -/
def translationMatrix (p : Vec3) : Mat4 :=
  { mat4identity with a03 := p.x, a13 := p.y, a23 := p.z }

/-- The scaling matrix glm::scale multiplies onto the right of its matrix
argument: the diagonal (sx, sy, sz, 1). -/
def scalingMatrix (s : Vec3) : Mat4 :=
  { mat4identity with a00 := s.x, a11 := s.y, a22 := s.z }

/-- The rotation matrix glm::rotate multiplies onto the right of its matrix
argument, by the Rodrigues formula exactly as glm computes its entries from
c = cos(angle), s = sin(angle) and the (already unit-length, as all axes the
program passes are) rotation axis. The angle enters only through its cosine
and sine, so the embedding takes that pair directly. -/
def rotationMatrix (c s : ℚ) (axis : Vec3) : Mat4 :=
  let t := 1 - c
  { a00 := c + t * axis.x * axis.x
    a01 := t * axis.x * axis.y - s * axis.z
    a02 := t * axis.x * axis.z + s * axis.y
    a03 := 0
    a10 := t * axis.x * axis.y + s * axis.z
    a11 := c + t * axis.y * axis.y
    a12 := t * axis.y * axis.z - s * axis.x
    a13 := 0
    a20 := t * axis.x * axis.z - s * axis.y
    a21 := t * axis.y * axis.z + s * axis.x
    a22 := c + t * axis.z * axis.z
    a23 := 0
    a30 := 0
    a31 := 0
    a32 := 0
    a33 := 1 }

/-- glm::translate(m, v) = m * T(v). -/
def translateGlm (m : Mat4) (v : Vec3) : Mat4 := matMul m (translationMatrix v)

/-- glm::scale(m, v) = m * S(v). -/
def scaleGlm (m : Mat4) (v : Vec3) : Mat4 := matMul m (scalingMatrix v)

/-- glm::rotate(m, angle, axis) = m * R(cos angle, sin angle, axis). -/
def rotateGlm (m : Mat4) (c s : ℚ) (axis : Vec3) : Mat4 :=
  matMul m (rotationMatrix c s axis)

/-- An Euler angle represented by its cosine and sine. The zero angle is
`{ c := 1, s := 0 }`. -/
structure AngleCS where
  c : ℚ
  s : ℚ
deriving DecidableEq, Repr

/-- The orientation vector of buildModelMatrix: one Euler angle per axis,
each carried as its cosine/sine pair. -/
structure EulerOrientation where
  xAngle : AngleCS
  yAngle : AngleCS
  zAngle : AngleCS
deriving DecidableEq, Repr

/-- buildModelMatrix from main.cpp:202-209: starting from glm::mat4(1),
glm::translate by the position, glm::scale by the scale, then glm::rotate
about (0,0,1) by orientation[2], about (1,0,0) by orientation[0], and about
(0,1,0) by orientation[1], in that order. -/
def buildModelMatrix (position : Vec3) (orientation : EulerOrientation) (scale : Vec3) : Mat4 :=
  let m1 := translateGlm mat4identity position
  let m2 := scaleGlm m1 scale
  let m3 := rotateGlm m2 orientation.zAngle.c orientation.zAngle.s { x := 0, y := 0, z := 1 }
  let m4 := rotateGlm m3 orientation.xAngle.c orientation.xAngle.s { x := 1, y := 0, z := 0 }
  let m5 := rotateGlm m4 orientation.yAngle.c orientation.yAngle.s { x := 0, y := 1, z := 0 }
  m5

/-- Variant of buildModelMatrix with the application order of the three
rotation axes swapped (Y, then X, then Z instead of Z, then X, then Y),
following the spec's words that such a swap must change the result; it is
compared against `buildModelMatrix`, never used by it. -/
def buildModelMatrixSwappedYXZ (position : Vec3) (orientation : EulerOrientation) (scale : Vec3) : Mat4 :=
  let m1 := translateGlm mat4identity position
  let m2 := scaleGlm m1 scale
  let m3 := rotateGlm m2 orientation.yAngle.c orientation.yAngle.s { x := 0, y := 1, z := 0 }
  let m4 := rotateGlm m3 orientation.xAngle.c orientation.xAngle.s { x := 1, y := 0, z := 0 }
  let m5 := rotateGlm m4 orientation.zAngle.c orientation.zAngle.s { x := 0, y := 0, z := 1 }
  m5

/-- The origin vector (0, 0, 0). -/
def originVec : Vec3 := { x := 0, y := 0, z := 0 }

/-- The unit scale vector (1, 1, 1). -/
def unitScaleVec : Vec3 := { x := 1, y := 1, z := 1 }

/-- A quarter turn (angle pi/2: cosine 0, sine 1, a non-zero angle) about
each of the three axes. -/
def quarterTurns : EulerOrientation :=
  { xAngle := { c := 0, s := 1 }, yAngle := { c := 0, s := 1 }, zAngle := { c := 0, s := 1 } }

/-- The identity orientation: angle 0 (cosine 1, sine 0) about each axis. -/
def zeroOrientation : EulerOrientation :=
  { xAngle := { c := 1, s := 0 }, yAngle := { c := 1, s := 0 }, zAngle := { c := 1, s := 0 } }

/-- An SFML window event as the render loop inspects it: its type is either
sf::Event::Closed or something else. -/
inductive SfEvent where
  | closed
  | other
deriving DecidableEq, Repr

/-- The observable per-iteration steps of the render loop (main.cpp:242-268),
in source order: drain pending events, measure elapsed time, push the view
and projection uniforms, push the model uniform, clear the color and depth
buffers, draw the mesh, present the frame. -/
inductive RenderAction where
  | drainEvents
  | measureTime
  | pushViewProjection
  | pushModel
  | clearBuffers
  | drawCall
  | presentFrame
deriving DecidableEq, Repr

/-- The fixed action sequence one loop iteration performs, in source order. -/
def iterationActions : List RenderAction :=
  [RenderAction.drainEvents, RenderAction.measureTime, RenderAction.pushViewProjection,
   RenderAction.pushModel, RenderAction.clearBuffers, RenderAction.drawCall,
   RenderAction.presentFrame]

/-- The event-drain loop of main.cpp:244-248: each pending event is polled
and a Closed event sets `running` to false; nothing sets it back. -/
def pollEvents (running : Bool) (evs : List SfEvent) : Bool :=
  evs.foldl (fun r e => match e with | SfEvent.closed => false | SfEvent.other => r) running

/-- The render loop of main.cpp:242-270 over a schedule of per-iteration
pending-event batches. While `running`, an iteration drains its batch
(possibly clearing `running`) and then performs the remaining steps of
`iterationActions` unconditionally; when `running` is false the loop ends
and main returns 0 (`some 0`). A schedule exhausted while still running
means the loop is still going: no exit status yet (`none`). -/
def runLoop : Bool → List (List SfEvent) → List RenderAction × Option ℕ
  | false, _ => ([], some 0)
  | true, [] => ([], none)
  | true, evs :: rest =>
    let tail := runLoop (pollEvents true evs) rest
    (iterationActions ++ tail.1, tail.2)

/-- A cube mesh: 8 vertices, 12 triangular faces with in-range indices. -/
def cubeMesh : AiMesh where
  mVertices :=
    [⟨0, 0, 0⟩, ⟨1, 0, 0⟩, ⟨1, 1, 0⟩, ⟨0, 1, 0⟩,
     ⟨0, 0, 1⟩, ⟨1, 0, 1⟩, ⟨1, 1, 1⟩, ⟨0, 1, 1⟩]
  mTextureCoords0 :=
    [⟨0, 0, 0⟩, ⟨1, 0, 0⟩, ⟨1, 1, 0⟩, ⟨0, 1, 0⟩,
     ⟨0, 0, 0⟩, ⟨1, 0, 0⟩, ⟨1, 1, 0⟩, ⟨0, 1, 0⟩]
  mFaces :=
    [⟨0, 1, 2⟩, ⟨0, 2, 3⟩, ⟨4, 6, 5⟩, ⟨4, 7, 6⟩,
     ⟨0, 4, 5⟩, ⟨0, 5, 1⟩, ⟨3, 2, 6⟩, ⟨3, 6, 7⟩,
     ⟨1, 5, 6⟩, ⟨1, 6, 2⟩, ⟨0, 3, 7⟩, ⟨0, 7, 4⟩]

/-- A one-vertex source mesh whose first UV channel carries a non-trivial
texture coordinate (u, v) = (1/2, 1/4). -/
def uvProbeMesh : AiMesh where
  mVertices := [⟨0, 0, 0⟩]
  mTextureCoords0 := [⟨1/2, 1/4, 0⟩]
  mFaces := []

/-- Multiplying by the identity on the left leaves a matrix unchanged. -/
theorem matMul_identity_left (a : Mat4) : matMul mat4identity a = a := by
  cases a
  simp [matMul, mat4identity]

/-- Once the running flag is false, draining more events leaves it false. -/
theorem pollEvents_false (evs : List SfEvent) : pollEvents false evs = false := by
  induction evs with
  | nil => rfl
  | cons e tl ih => cases e <;> exact ih

/-- Draining a batch that contains a Closed event clears the running flag. -/
theorem pollEvents_closed (r : Bool) (evs : List SfEvent) (h : SfEvent.closed ∈ evs) :
    pollEvents r evs = false := by
  induction evs generalizing r with
  | nil => cases h
  | cons e tl ih =>
    cases e with
    | closed => exact pollEvents_false tl
    | other =>
      cases h with
      | tail _ h2 => exact ih r h2

/-- Flattening a face list yields three indices per face. -/
theorem tripleIndexList_length (L : List AiFace) :
    (tripleIndexList L).length = 3 * L.length := by
  induction L with
  | nil => rfl
  | cons fc tl ih =>
    simp only [tripleIndexList, List.length_cons, ih]
    omega

/-- Every index in a flattened face list is an index of one of the faces. -/
theorem mem_tripleIndexList {i : ℕ} {L : List AiFace} (h : i ∈ tripleIndexList L) :
    ∃ fc ∈ L, i = fc.i0 ∨ i = fc.i1 ∨ i = fc.i2 := by
  induction L with
  | nil => cases h
  | cons fc tl ih =>
    simp only [tripleIndexList, List.mem_cons] at h
    rcases h with rfl | rfl | rfl | h
    · exact ⟨fc, List.mem_cons_self fc tl, Or.inl rfl⟩
    · exact ⟨fc, List.mem_cons_self fc tl, Or.inr (Or.inl rfl)⟩
    · exact ⟨fc, List.mem_cons_self fc tl, Or.inr (Or.inr rfl)⟩
    · obtain ⟨fc2, hmem, hor⟩ := ih h
      exact ⟨fc2, List.mem_cons_of_mem fc hmem, hor⟩

/-- C1 (amended): for every preconditioned input (index-list length a
multiple of 3, all indices in range) with a non-empty index list,
constructMesh succeeds and the mesh's reported `faces` count equals the
index-list length (reduced into the 32-bit field), not that length divided
by 3; in particular the literal triangle succeeds and reports 3. -/
theorem constructMesh_reports_index_count :
    (∀ (v : List Vertex3D) (f : List ℕ), f.length % 3 = 0 → (∀ i ∈ f, i < v.length) →
       f ≠ [] → ∃ m, constructMesh v f = some m ∧ m.faces = f.length % 2 ^ 32) ∧
    constructMesh triangleVertices triangleFaces =
      some { vao := 0, faces := 3, texture := 0 } := by
  refine ⟨?_, by decide⟩
  intro v f _h3 hrange hne
  obtain ⟨i, f2, rfl⟩ : ∃ i f2, f = i :: f2 := by
    cases f with
    | nil => exact absurd rfl hne
    | cons a b => exact ⟨a, b, rfl⟩
  have hi := hrange i (List.mem_cons_self i f2)
  cases v with
  | nil => simp at hi
  | cons vv v2 => exact ⟨_, rfl, rfl⟩

/-- C1 counterexample: the literal triangle's mesh does not report a face
count equal to the index-list length divided by 3 (it reports 3, not 1). -/
theorem constructMesh_triangle_count_not_third :
    (constructMesh triangleVertices triangleFaces).map Mesh.faces ≠
      some (triangleFaces.length / 3) := by decide

/-- C2: buildModelMatrix equals translate(position) * scale(scale) *
rotateZ * rotateX * rotateY applied to the identity, in exactly that order,
for every position, orientation and scale; and swapping the application
order of the three rotation axes (Y, X, Z instead of Z, X, Y) changes the
result at the non-zero quarter-turn angles. -/
theorem buildModelMatrix_composition_order :
    (∀ (p : Vec3) (o : EulerOrientation) (s : Vec3),
       buildModelMatrix p o s =
         matMul (matMul (matMul (matMul (translationMatrix p) (scalingMatrix s))
           (rotationMatrix o.zAngle.c o.zAngle.s { x := 0, y := 0, z := 1 }))
           (rotationMatrix o.xAngle.c o.xAngle.s { x := 1, y := 0, z := 0 }))
           (rotationMatrix o.yAngle.c o.yAngle.s { x := 0, y := 1, z := 0 })) ∧
    buildModelMatrixSwappedYXZ originVec quarterTurns unitScaleVec ≠
      buildModelMatrix originVec quarterTurns unitScaleVec := by
  constructor
  · intro p o s
    simp [buildModelMatrix, rotateGlm, scaleGlm, translateGlm, matMul_identity_left]
  · norm_num [buildModelMatrixSwappedYXZ, buildModelMatrix, rotateGlm, scaleGlm, translateGlm,
      matMul, mat4identity, translationMatrix, scalingMatrix, rotationMatrix, originVec,
      quarterTurns, unitScaleVec]

/-- C3: constructMesh configures exactly one vertex attribute — attribute 0,
three floats at byte offset 0 with the vertex record size as stride — and
not the two the claim states: the second attribute is an unimplemented TODO
in the source (main.cpp:67-71). -/
theorem constructMesh_attrib_layout :
    constructMeshAttribs =
      [{ index := 0, size := 3, byteOffset := 0, stride := sizeofVertex3D }] ∧
    sizeofVertex3D = 20 ∧
    constructMeshAttribs.length ≠ 2 := by decide

/-- C9: buildModelMatrix at position (0,0,0), orientation (0,0,0) (angle 0
per axis: cosine 1, sine 0) and scale (1,1,1) is the identity matrix. -/
theorem buildModelMatrix_identity_at_defaults :
    buildModelMatrix originVec zeroOrientation unitScaleVec = mat4identity := by
  norm_num [buildModelMatrix, rotateGlm, scaleGlm, translateGlm, matMul, mat4identity,
    translationMatrix, scalingMatrix, rotationMatrix, originVec, zeroOrientation, unitScaleVec]

/-- C10: constructMesh unconditionally reads element 0 of both input lists;
for non-empty inputs every such element access is in bounds and the call
succeeds, while the element-0 access is out of bounds on an empty list even
though the spec's stated preconditions (length a multiple of 3, indices in
range) are satisfied by empty lists, on which constructMesh reaches the
out-of-bounds access. -/
theorem constructMesh_nonempty_precondition :
    (∀ (v : List Vertex3D) (f : List ℕ), v ≠ [] → f ≠ [] →
       ((∀ i ∈ constructMeshVertexElementReads, i < v.length) ∧
        (∀ i ∈ constructMeshFaceElementReads, i < f.length) ∧
        (constructMesh v f).isSome = true)) ∧
    (∀ i ∈ constructMeshVertexElementReads, ¬ i < ([] : List Vertex3D).length) ∧
    (∀ i ∈ constructMeshFaceElementReads, ¬ i < ([] : List ℕ).length) ∧
    (([] : List ℕ).length % 3 = 0 ∧ ∀ (v : List Vertex3D), ∀ i ∈ ([] : List ℕ), i < v.length) ∧
    (∀ f : List ℕ, constructMesh [] f = none) ∧
    (∀ v : List Vertex3D, constructMesh v [] = none) := by
  refine ⟨?_, by decide, by decide, ⟨rfl, by simp⟩, ?_, ?_⟩
  · intro v f hv hf
    have hv0 : 0 < v.length := List.length_pos.mpr hv
    have hf0 : 0 < f.length := List.length_pos.mpr hf
    refine ⟨?_, ?_, ?_⟩
    · intro i hi
      simp only [constructMeshVertexElementReads, List.mem_singleton] at hi
      omega
    · intro i hi
      simp only [constructMeshFaceElementReads, List.mem_singleton] at hi
      omega
    · cases v with
      | nil => exact absurd rfl hv
      | cons a v2 =>
        cases f with
        | nil => exact absurd rfl hf
        | cons b f2 => rfl
  · intro f
    rfl
  · intro v
    cases v <;> rfl

/-- C4: the import operation emits exactly one Vertex record per source
vertex carrying that vertex's position, but with u = v = 0 for every vertex
— the (u, v) of the first UV channel is never read (the TODO of
main.cpp:95-103): at the probe mesh whose first UV channel holds (1/2, 1/4),
the emitted vertex carries (0, 0). -/
theorem fromAssimpMesh_uv_not_imported :
    (∀ mesh : AiMesh,
       (fromAssimpMeshVertices mesh).length = mesh.mVertices.length ∧
       (fromAssimpMeshVertices mesh).map (fun w => (w.x, w.y, w.z)) =
         mesh.mVertices.map (fun p => (p.x, p.y, p.z)) ∧
       (fromAssimpMeshVertices mesh).map (fun w => (w.u, w.v)) =
         List.replicate mesh.mVertices.length ((0 : ℚ), (0 : ℚ))) ∧
    fromAssimpMeshVertices uvProbeMesh = [{ x := 0, y := 0, z := 0, u := 0, v := 0 }] ∧
    uvProbeMesh.mTextureCoords0 = [{ x := 1/2, y := 1/4, z := 0 }] := by
  refine ⟨?_, ?_, rfl⟩
  · intro mesh
    refine ⟨by simp [fromAssimpMeshVertices], by simp [fromAssimpMeshVertices], ?_⟩
    simp [fromAssimpMeshVertices, List.map_map, Function.comp_def, List.map_const']
  · norm_num [fromAssimpMeshVertices, uvProbeMesh]

/-- C5 (amended): assimpLoad fails fatally (diagnostic and exit 1) if and
only if the importer returned no scene (the file could not be parsed); a
successfully parsed scene with an empty mesh list is not detected — the code
reaches the out-of-bounds access scene->mMeshes[0] instead of failing
fatally — and a scene with at least one mesh yields the mesh built from its
first mesh. -/
theorem assimpLoad_outcomes :
    (∀ sc : Option AiScene, ((assimpLoadFromScene sc).isFatal = true ↔ sc = none)) ∧
    assimpLoadFromScene none = LoadOutcome.fatalExit 1 ∧
    (∀ s : AiScene, s.mMeshes = [] →
       assimpLoadFromScene (some s) = LoadOutcome.indexOutOfBounds) ∧
    (∀ (s : AiScene) (m0 : AiMesh) (ms : List AiMesh), s.mMeshes = m0 :: ms →
       assimpLoadFromScene (some s) =
         LoadOutcome.ok (constructMesh (fromAssimpMeshVertices m0) (fromAssimpMeshFaces m0))) := by
  refine ⟨?_, rfl, ?_, ?_⟩
  · intro sc
    match sc with
    | none => simp [assimpLoadFromScene, LoadOutcome.isFatal]
    | some ⟨[]⟩ => simp [assimpLoadFromScene, LoadOutcome.isFatal]
    | some ⟨m0 :: ms⟩ => simp [assimpLoadFromScene, LoadOutcome.isFatal]
  · intro s h
    obtain ⟨l⟩ := s
    have h2 : l = [] := h
    subst h2
    rfl
  · intro s m0 ms h
    obtain ⟨l⟩ := s
    have h2 : l = m0 :: ms := h
    subst h2
    rfl

/-- C5 counterexample: a successfully parsed scene with zero meshes does not
take the fatal diagnostic-and-exit path; it reaches the out-of-bounds
mMeshes[0] access. -/
theorem assimpLoad_zero_mesh_scene_not_fatal :
    (assimpLoadFromScene (some { mMeshes := [] })).isFatal = false ∧
    assimpLoadFromScene (some { mMeshes := [] }) = LoadOutcome.indexOutOfBounds := by
  exact ⟨rfl, rfl⟩

/-- C6: a Closed event seen during the event drain clears the running flag,
so the iteration it arrives in is the last one — the loop performs that
iteration's fixed action sequence (drain, measure, push view/projection,
push model, clear, draw, present, in source order) and then, being Stopped,
ends with exit status 0; no further draw happens. -/
theorem runLoop_closed_event_stops :
    (∀ (evs : List SfEvent) (rest : List (List SfEvent)), SfEvent.closed ∈ evs →
       runLoop true (evs :: rest) = (iterationActions, some 0)) ∧
    (∀ (evs : List SfEvent) (rest : List (List SfEvent)),
       runLoop true (evs :: rest) =
         (iterationActions ++ (runLoop (pollEvents true evs) rest).1,
          (runLoop (pollEvents true evs) rest).2)) ∧
    iterationActions =
      [RenderAction.drainEvents, RenderAction.measureTime, RenderAction.pushViewProjection,
       RenderAction.pushModel, RenderAction.clearBuffers, RenderAction.drawCall,
       RenderAction.presentFrame] ∧
    (∀ sched : List (List SfEvent), runLoop false sched = ([], some 0)) ∧
    runLoop true ([SfEvent.closed] :: [[SfEvent.other], [SfEvent.other]]) =
      (iterationActions, some 0) := by
  refine ⟨?_, fun evs rest => rfl, rfl, ?_, by decide⟩
  · intro evs rest h
    simp [runLoop, pollEvents_closed true evs h]
  · intro sched
    cases sched <;> rfl

/-- C7: the import emits exactly 3 * F indices for F triangular source
faces — each face contributing its three vertex indices in face order
(flattening distributes over face-list concatenation, one face yielding its
index triple) — and when the source faces index into the source vertex list,
every emitted index is below the number of emitted vertices; the 12-triangle
cube mesh yields exactly 36 indices, all valid. -/
theorem fromAssimpMesh_index_emission :
    (∀ mesh : AiMesh, (fromAssimpMeshFaces mesh).length = 3 * mesh.mFaces.length) ∧
    (∀ (L1 L2 : List AiFace),
       tripleIndexList (L1 ++ L2) = tripleIndexList L1 ++ tripleIndexList L2) ∧
    (∀ fc : AiFace, tripleIndexList [fc] = [fc.i0, fc.i1, fc.i2]) ∧
    (∀ mesh : AiMesh,
       (∀ fc ∈ mesh.mFaces, fc.i0 < mesh.mVertices.length ∧ fc.i1 < mesh.mVertices.length ∧
          fc.i2 < mesh.mVertices.length) →
       ∀ i ∈ fromAssimpMeshFaces mesh, i < (fromAssimpMeshVertices mesh).length) ∧
    (fromAssimpMeshFaces cubeMesh).length = 36 ∧
    (∀ i ∈ fromAssimpMeshFaces cubeMesh, i < (fromAssimpMeshVertices cubeMesh).length) := by
  refine ⟨fun mesh => tripleIndexList_length mesh.mFaces, ?_, fun fc => rfl, ?_, by decide,
    by decide⟩
  · intro L1 L2
    induction L1 with
    | nil => rfl
    | cons fc tl ih => simp [tripleIndexList, ih]
  · intro mesh hvalid i hi
    obtain ⟨fc, hmem, hor⟩ := mem_tripleIndexList hi
    have hlen : (fromAssimpMeshVertices mesh).length = mesh.mVertices.length := by
      simp [fromAssimpMeshVertices]
    obtain ⟨h0, h1, h2⟩ := hvalid fc hmem
    rcases hor with rfl | rfl | rfl
    · omega
    · omega
    · omega

/-- C8: running the import on the UV-flipped scene produces exactly the same
vertex list as on the unflipped scene — the imported V coordinates are all 0
either way, because the UV import is an unimplemented TODO — so flipping
flipUvs does not invert the V coordinate of the imported vertices: at the
probe mesh (source v = 1/4) the flipped import carries v = 0 while the
claimed inversion of the unflipped import would be 1 - 0 = 1. -/
theorem flipUvs_no_effect_on_imported_vertices :
    (∀ mesh : AiMesh, fromAssimpMeshVertices (flipMeshUVs mesh) = fromAssimpMeshVertices mesh) ∧
    (fromAssimpMeshVertices (flipMeshUVs uvProbeMesh)).map Vertex3D.v = [0] ∧
    (fromAssimpMeshVertices uvProbeMesh).map Vertex3D.v = [0] ∧
    (fromAssimpMeshVertices (flipMeshUVs uvProbeMesh)).map Vertex3D.v ≠
      (fromAssimpMeshVertices uvProbeMesh).map (fun w => 1 - w.v) := by
  refine ⟨?_, ?_, ?_, ?_⟩
  · intro mesh
    cases mesh
    rfl
  · norm_num [fromAssimpMeshVertices, flipMeshUVs, uvProbeMesh]
  · norm_num [fromAssimpMeshVertices, uvProbeMesh]
  · norm_num [fromAssimpMeshVertices, flipMeshUVs, uvProbeMesh]
